import Mathlib

/-!
# PicoTCP OS adapter (`src/port_os/pico_port.c`)

A shallow embedding of the adapter functions and the properties of the
lazily constructed allocator singleton, the zero-filling allocation
front end and the time conversion.

* Function-local static objects are named symbolically (`StaticObj`), so that
  two pointers are equal exactly when they designate the same object.
* Data pointers handed out by the allocator are byte addresses (`Nat`),
  `0` being `NULL`; memory is a map from addresses to byte values.
* The collaborators that live outside this file (timer, mutexes, `lib_mem`)
  are a record of state transformers, `Host`, over an arbitrary state.
* Every call that leaves the file is appended to a trace, together with its
  arguments and its result.
-/

namespace PicoPort

/-! ## Configuration constants (lines 19-21) -/

/-- Source: `#define OS_NETWORK_STACK_MEMORY_POOL_SIZE (1024*1024)` -/
def OS_NETWORK_STACK_MEMORY_POOL_SIZE : Nat := 1024 * 1024

/-- Source: `#define EL_SIZE 8` -/
def EL_SIZE : Nat := 8

/-- Source: `#define NUM_EL (OS_NETWORK_STACK_MEMORY_POOL_SIZE / EL_SIZE)` -/
def NUM_EL : Nat := OS_NETWORK_STACK_MEMORY_POOL_SIZE / EL_SIZE

/-! ## Objects and pointers -/

/-- The host entry points declared at lines 27-31. -/
inductive HostFn
  | Timer_getTimeMs
  | allocatorMutex_lock
  | allocatorMutex_unlock
  | nwstackMutex_lock
  | nwstackMutex_unlock
  deriving DecidableEq

/-- Source: `Mutex`, as initialised at lines 115-119: a pair of function pointers. -/
structure Mutex where
  lock : HostFn
  unlock : HostFn
  deriving DecidableEq

/-- The function-local static objects of `getAllocatorInstance`
(lines 115-129), the cached pointer variable `allocator` apart, whose
address is never taken. -/
inductive StaticObj
  | const_allocMutex
  | allocMutex
  | allocatorSafe
  | bmAllocator
  | bmap
  | bbmap
  | mem_pool
  deriving DecidableEq

/-- Pointers to objects: `NULL`, the address of a static object, or the
`Allocator` interface of a static object. -/
inductive Ptr
  | null
  | obj (o : StaticObj)
  | iface (o : StaticObj)
  deriving DecidableEq

/-- Source: `static const Mutex const_allocMutex = { .lock = allocatorMutex_lock,
.unlock = allocatorMutex_unlock };` -/
def const_allocMutex : Mutex :=
  { lock := HostFn.allocatorMutex_lock, unlock := HostFn.allocatorMutex_unlock }

/-- Source: `static Mutex* const allocMutex = (Mutex*)(&const_allocMutex);`: the value
of the helper pointer variable. -/
def allocMutex : Ptr := Ptr.obj StaticObj.const_allocMutex

/-- The `Mutex` a pointer designates: only `const_allocMutex` is a `Mutex`
object; `allocMutex` is a pointer variable. -/
def derefMutex : Ptr → Option Mutex
  | Ptr.obj StaticObj.const_allocMutex => some const_allocMutex
  | _ => none

/-- Modelled from the spec: the header `lib_mem/BitmapAllocator.h` with the
conversion `BitmapAllocator_TO_ALLOCATOR` is not among the sources; the
conversion views the object it is given through its `Allocator` interface. -/
def BitmapAllocator_TO_ALLOCATOR : Ptr → Ptr
  | Ptr.obj o => Ptr.iface o
  | p => p

/-- Modelled from the spec: the header `lib_mem/AllocatorSafe.h` with the
conversion `AllocatorSafe_TO_ALLOCATOR` is not among the sources; the
conversion views the wrapper it is given through its `Allocator` interface,
which is the instance pointer that gets cached. -/
def AllocatorSafe_TO_ALLOCATOR : Ptr → Ptr
  | Ptr.obj o => Ptr.iface o
  | p => p

/-! ## Calls leaving the file -/

/-- One call to a collaborator, with its arguments and its result. -/
inductive Call
  | host (f : HostFn)
  | seL4_Yield
  | Mutex_ctor (self : Ptr) (ok : Bool)
  | BitmapAllocator_ctorStatic (self mem bmap bbmap : Ptr) (elSize numEl : Nat) (ok : Bool)
  | AllocatorSafe_ctor (self impl mutex : Ptr) (ok : Bool)
  | Allocator_alloc (self : Ptr) (n : Nat) (ret : Nat)
  | Allocator_free (self : Ptr) (p : Nat)
  | memset (p c n : Nat)
  | Debug_LOG_ERROR (fmt : String) (args : List Nat)
  deriving DecidableEq

/-- Is the call one of the three construction steps? -/
def Call.isCtor : Call → Bool
  | Call.Mutex_ctor _ _ => true
  | Call.BitmapAllocator_ctorStatic _ _ _ _ _ _ _ => true
  | Call.AllocatorSafe_ctor _ _ _ _ => true
  | _ => false

/-- Is the call a `memset`? -/
def Call.isMemset : Call → Bool
  | Call.memset _ _ _ => true
  | _ => false

/-- Is the call an `Allocator_alloc`? -/
def Call.isAlloc : Call → Bool
  | Call.Allocator_alloc _ _ _ => true
  | _ => false

/-- Is the call an `Allocator_free`? -/
def Call.isFree : Call → Bool
  | Call.Allocator_free _ _ => true
  | _ => false

/-- Byte memory together with the private state of the collaborators. -/
structure Machine (σ : Type) where
  mem : Nat → Nat
  ext : σ

/-- The collaborators the file is linked against. The mutex and timer entry
points are the ones declared at lines 27-31; the constructors and
`Allocator_alloc` / `Allocator_free` come from `lib_mem`; none of them is
defined in this repository, so each is an arbitrary transformer of the
machine state. -/
structure Host (σ : Type) where
  Timer_getTimeMs : Machine σ → Nat × Machine σ
  allocatorMutex_lock : Machine σ → Machine σ
  allocatorMutex_unlock : Machine σ → Machine σ
  nwstackMutex_lock : Machine σ → Machine σ
  nwstackMutex_unlock : Machine σ → Machine σ
  seL4_Yield : Machine σ → Machine σ
  Mutex_ctor : Ptr → Machine σ → Bool × Machine σ
  BitmapAllocator_ctorStatic :
    Ptr → Ptr → Ptr → Ptr → Nat → Nat → Machine σ → Bool × Machine σ
  AllocatorSafe_ctor : Ptr → Ptr → Ptr → Machine σ → Bool × Machine σ
  Allocator_alloc : Ptr → Nat → Machine σ → Nat × Machine σ
  Allocator_free : Ptr → Nat → Machine σ → Machine σ

/-- The state a function of the file runs in: the static variable
`allocator` of `getAllocatorInstance` (line 108), the machine, and the
calls made so far. -/
structure World (σ : Type) where
  allocator : Ptr
  m : Machine σ
  trace : List Call

variable {σ : Type}

/-- Append a call to the trace. -/
def World.emit (w : World σ) (c : Call) : World σ :=
  { w with trace := w.trace ++ [c] }

/-- Source: `Debug_LOG_ERROR(fmt, args...)`. -/
def Debug_LOG_ERROR (fmt : String) (args : List Nat) (w : World σ) : World σ :=
  w.emit (Call.Debug_LOG_ERROR fmt args)

/-- The C library `memset(p, c, n)` on byte memory: the `n` bytes from `p`
on are set to `(unsigned char) c`. -/
def memsetMem (mem : Nat → Nat) (p c n : Nat) : Nat → Nat :=
  fun a => if p ≤ a ∧ a < p + n then c % 256 else mem a

/-- Source: `memset(p, c, n)` as a step of the world. -/
def memset (p c n : Nat) (w : World σ) : World σ :=
  { w with m := { w.m with mem := memsetMem w.m.mem p c n },
           trace := w.trace ++ [Call.memset p c n] }

/-! ## Mutex hooks (lines 34-73) -/

/-- Source: `pico_mutex_init` (lines 42-47): a dummy context that is not `NULL`. -/
def pico_mutex_init : Nat := 42

/-- Source: `pico_mutex_deinit` (lines 34-38). -/
def pico_mutex_deinit (_m : Nat) (w : World σ) : World σ := w

/-- Source: `pico_mutex_lock` (lines 51-60). -/
def pico_mutex_lock (H : Host σ) (_m : Nat) (w : World σ) : World σ :=
  { w with m := H.nwstackMutex_lock w.m,
           trace := w.trace ++ [Call.host HostFn.nwstackMutex_lock] }

/-- Source: `pico_mutex_unlock` (lines 64-73). -/
def pico_mutex_unlock (H : Host σ) (_m : Nat) (w : World σ) : World σ :=
  { w with m := H.nwstackMutex_unlock w.m,
           trace := w.trace ++ [Call.host HostFn.nwstackMutex_unlock] }

/-! ## Time (lines 77-91) -/

/-- Width of `unsigned int`, the return type of `Timer_getTimeMs`. -/
def UINT_BITS : Nat := 32

/-- Source: `os_pico_time_ms` (lines 77-81): the timer value, an `unsigned int`,
converted to `unsigned long`, which is at least as wide. -/
def os_pico_time_ms (H : Host σ) (w : World σ) : Nat × World σ :=
  let r := H.Timer_getTimeMs w.m
  (r.1 % 2 ^ UINT_BITS,
    { w with m := r.2, trace := w.trace ++ [Call.host HostFn.Timer_getTimeMs] })

/-- Source: `os_pico_time_s` (lines 85-91). -/
def os_pico_time_s (H : Host σ) (w : World σ) : Nat × World σ :=
  let r := os_pico_time_ms H w
  (r.1 / 1000, r.2)

/-- Source: `os_pico_idle` (lines 95-101). -/
def os_pico_idle (H : Host σ) (w : World σ) : World σ :=
  { w with m := H.seL4_Yield w.m, trace := w.trace ++ [Call.seL4_Yield] }

/-! ## The lazily constructed allocator (lines 105-172) -/

/-- Line 131: `allocatorMutex_lock();`, the result is not looked at. -/
def lockStep (H : Host σ) (w : World σ) : World σ :=
  { w with m := H.allocatorMutex_lock w.m,
           trace := w.trace ++ [Call.host HostFn.allocatorMutex_lock] }

/-- Line 169: `allocatorMutex_unlock();`, the result is not looked at. -/
def unlockStep (H : Host σ) (w : World σ) : World σ :=
  { w with m := H.allocatorMutex_unlock w.m,
           trace := w.trace ++ [Call.host HostFn.allocatorMutex_unlock] }

/-- Line 135: `ok = Mutex_ctor((Mutex*) &allocMutex);`. The argument is the
address of the pointer variable `allocMutex`, cast to `Mutex*`. -/
def mutexCtorStep (H : Host σ) (w : World σ) : Bool × World σ :=
  let r := H.Mutex_ctor (Ptr.obj StaticObj.allocMutex) w.m
  (r.1, { w with m := r.2,
                 trace := w.trace ++ [Call.Mutex_ctor (Ptr.obj StaticObj.allocMutex) r.1] })

/-- Lines 142-148: `ok = BitmapAllocator_ctorStatic(&bmAllocator, mem_pool,
bmap, bbmap, EL_SIZE, NUM_EL);`. -/
def bitmapCtorStep (H : Host σ) (w : World σ) : Bool × World σ :=
  let r := H.BitmapAllocator_ctorStatic (Ptr.obj StaticObj.bmAllocator)
    (Ptr.obj StaticObj.mem_pool) (Ptr.obj StaticObj.bmap) (Ptr.obj StaticObj.bbmap)
    EL_SIZE NUM_EL w.m
  (r.1, { w with m := r.2,
                 trace := w.trace ++ [Call.BitmapAllocator_ctorStatic
                   (Ptr.obj StaticObj.bmAllocator) (Ptr.obj StaticObj.mem_pool)
                   (Ptr.obj StaticObj.bmap) (Ptr.obj StaticObj.bbmap) EL_SIZE NUM_EL r.1] })

/-- Lines 155-158: `ok = AllocatorSafe_ctor(&allocatorSafe,
BitmapAllocator_TO_ALLOCATOR(&bmAllocator), allocMutex);`. -/
def safeCtorStep (H : Host σ) (w : World σ) : Bool × World σ :=
  let r := H.AllocatorSafe_ctor (Ptr.obj StaticObj.allocatorSafe)
    (BitmapAllocator_TO_ALLOCATOR (Ptr.obj StaticObj.bmAllocator)) allocMutex w.m
  (r.1, { w with m := r.2,
                 trace := w.trace ++ [Call.AllocatorSafe_ctor (Ptr.obj StaticObj.allocatorSafe)
                   (BitmapAllocator_TO_ALLOCATOR (Ptr.obj StaticObj.bmAllocator)) allocMutex r.1] })

/-- Line 165: `allocator = AllocatorSafe_TO_ALLOCATOR(&allocatorSafe);`. -/
def publishStep (w : World σ) : World σ :=
  { w with allocator := AllocatorSafe_TO_ALLOCATOR (Ptr.obj StaticObj.allocatorSafe) }

/-- The body of `do { ... } while(0)` (lines 133-167): each `break` leaves
the rest of the body out. -/
def constructionBody (H : Host σ) (w : World σ) : World σ :=
  let r1 := mutexCtorStep H w
  if !r1.1 then Debug_LOG_ERROR "Mutex_ctor() failed" [] r1.2
  else
    let r2 := bitmapCtorStep H r1.2
    if !r2.1 then Debug_LOG_ERROR "BitmapAllocator_ctorStatic failed" [] r2.2
    else
      let r3 := safeCtorStep H r2.2
      if !r3.1 then Debug_LOG_ERROR "BitmapAllocator_ctorStatic failed" [] r3.2
      else publishStep r3.2

/-- Lines 131-171 of `getAllocatorInstance`: what runs once the test of
line 109 has found the cached pointer to be `NULL`. -/
def slowPath (H : Host σ) (w : World σ) : Ptr × World σ :=
  let w1 := lockStep H w
  let w2 := constructionBody H w1
  let w3 := unlockStep H w2
  (w3.allocator, w3)

/-- Source: `getAllocatorInstance` (lines 105-172). -/
def getAllocatorInstance (H : Host σ) (w : World σ) : Ptr × World σ :=
  if w.allocator ≠ Ptr.null then (w.allocator, w)
  else slowPath H w

/-! ## Allocation front end (lines 176-212) -/

/-- Source: `os_pico_zalloc` (lines 176-196); the result `0` is `NULL`. -/
def os_pico_zalloc (H : Host σ) (n : Nat) (w : World σ) : Nat × World σ :=
  let g := getAllocatorInstance H w
  if g.1 = Ptr.null then
    (0, Debug_LOG_ERROR "getAllocatorInstance() failed" [] g.2)
  else
    let r := H.Allocator_alloc g.1 n g.2.m
    let w1 : World σ :=
      { g.2 with m := r.2, trace := g.2.trace ++ [Call.Allocator_alloc g.1 n r.1] }
    if r.1 = 0 then
      (0, Debug_LOG_ERROR "Allocator_alloc() failed for n=%zu" [n] w1)
    else
      (r.1, memset r.1 0 n w1)

/-- Source: `os_pico_zfree` (lines 200-212). -/
def os_pico_zfree (H : Host σ) (p : Nat) (w : World σ) : World σ :=
  let g := getAllocatorInstance H w
  if g.1 = Ptr.null then
    Debug_LOG_ERROR "getAllocatorInstance() failed" [] g.2
  else
    { g.2 with m := H.Allocator_free g.1 p g.2.m,
               trace := g.2.trace ++ [Call.Allocator_free g.1 p] }

/-! ## Sequences of front-end calls -/

/-- One call of the allocation front end. -/
inductive Op
  | zalloc (n : Nat)
  | zfree (p : Nat)
  deriving DecidableEq

/-- Run one front-end call, dropping the value it returns. -/
def runOp (H : Host σ) (w : World σ) : Op → World σ
  | Op.zalloc n => (os_pico_zalloc H n w).2
  | Op.zfree p => os_pico_zfree H p w

/-- Run front-end calls one after the other. -/
def runOps (H : Host σ) (ops : List Op) (w : World σ) : World σ :=
  ops.foldl (runOp H) w

/-! ## Results of the construction steps along a slow-path run -/

/-- What `Mutex_ctor` reports in the slow-path run that starts in `w`. -/
def ctorResult1 (H : Host σ) (w : World σ) : Bool :=
  (mutexCtorStep H (lockStep H w)).1

/-- What `BitmapAllocator_ctorStatic` reports when it runs after a successful
`Mutex_ctor` in the slow-path run that starts in `w`. -/
def ctorResult2 (H : Host σ) (w : World σ) : Bool :=
  (bitmapCtorStep H (mutexCtorStep H (lockStep H w)).2).1

/-- What `AllocatorSafe_ctor` reports when it runs after the two earlier
steps succeeded in the slow-path run that starts in `w`. -/
def ctorResult3 (H : Host σ) (w : World σ) : Bool :=
  (safeCtorStep H (bitmapCtorStep H (mutexCtorStep H (lockStep H w)).2).2).1

/-- The host function of the first lock-or-timer call of a trace: in a
slow-path run, the lock taken around the construction. -/
def constructionLockOf : List Call → Option HostFn
  | [] => none
  | Call.host f :: _ => some f
  | _ :: cs => constructionLockOf cs

/-- The host function of the last host call of a trace: in a slow-path run,
the release of the construction lock. -/
def constructionUnlockOf (t : List Call) : Option HostFn :=
  constructionLockOf t.reverse

/-- The pointer handed to the first `Mutex_ctor` call of a trace. -/
def mutexCtorArgOf : List Call → Option Ptr
  | [] => none
  | Call.Mutex_ctor self _ :: _ => some self
  | _ :: cs => mutexCtorArgOf cs

/-- The mutex pointer handed to the first `AllocatorSafe_ctor` call of a
trace. -/
def wrapperMutexArgOf : List Call → Option Ptr
  | [] => none
  | Call.AllocatorSafe_ctor _ _ mutex _ :: _ => some mutex
  | _ :: cs => wrapperMutexArgOf cs

/-- The `Mutex` the wrapper is given in a trace: the operational lock. -/
def operationalMutexOf (t : List Call) : Option Mutex :=
  (wrapperMutexArgOf t).bind derefMutex

/-! ## Interleaved callers of `getAllocatorInstance`

Each caller is at a program point of lines 109-171; one step runs one
statement of one caller. The construction lock is a mutual-exclusion lock:
a caller at line 131 proceeds only while nobody holds it. -/

/-- Program points of one caller of `getAllocatorInstance`. -/
inductive PC
  | entry
  | acquire
  | mutexCtor
  | bitmapCtor
  | safeCtor
  | publish
  | release
  | ret
  | done (r : Ptr)
  deriving DecidableEq

/-- Shared state of the callers: the world, the holder of the construction
lock, and where each caller stands. -/
structure Shared (σ : Type) where
  w : World σ
  holder : Option Nat
  pcs : List PC

/-- Move caller `i` to program point `pc`. -/
def Shared.goto (s : Shared σ) (i : Nat) (pc : PC) : Shared σ :=
  { s with pcs := s.pcs.set i pc }

/-- One statement of caller `i`; nothing happens when the caller does not
exist, has returned, or waits for the lock. -/
def step (H : Host σ) (i : Nat) (s : Shared σ) : Shared σ :=
  match s.pcs[i]? with
  | none => s
  | some PC.entry =>
      if s.w.allocator ≠ Ptr.null then s.goto i (PC.done s.w.allocator)
      else s.goto i PC.acquire
  | some PC.acquire =>
      match s.holder with
      | some _ => s
      | none => { w := lockStep H s.w, holder := some i, pcs := s.pcs.set i PC.mutexCtor }
  | some PC.mutexCtor =>
      let r := mutexCtorStep H s.w
      if !r.1 then
        { s with w := Debug_LOG_ERROR "Mutex_ctor() failed" [] r.2,
                 pcs := s.pcs.set i PC.release }
      else { s with w := r.2, pcs := s.pcs.set i PC.bitmapCtor }
  | some PC.bitmapCtor =>
      let r := bitmapCtorStep H s.w
      if !r.1 then
        { s with w := Debug_LOG_ERROR "BitmapAllocator_ctorStatic failed" [] r.2,
                 pcs := s.pcs.set i PC.release }
      else { s with w := r.2, pcs := s.pcs.set i PC.safeCtor }
  | some PC.safeCtor =>
      let r := safeCtorStep H s.w
      if !r.1 then
        { s with w := Debug_LOG_ERROR "BitmapAllocator_ctorStatic failed" [] r.2,
                 pcs := s.pcs.set i PC.release }
      else { s with w := r.2, pcs := s.pcs.set i PC.publish }
  | some PC.publish => { s with w := publishStep s.w, pcs := s.pcs.set i PC.release }
  | some PC.release => { w := unlockStep H s.w, holder := none, pcs := s.pcs.set i PC.ret }
  | some PC.ret => s.goto i (PC.done s.w.allocator)
  | some (PC.done _) => s

/-- Run the callers in the order a schedule names them. -/
def runSched (H : Host σ) (sched : List Nat) (s : Shared σ) : Shared σ :=
  sched.foldl (fun s i => step H i s) s

/-- The start: `K` callers about to enter, the singleton unconstructed, the
lock free. -/
def initShared (K : Nat) (m : Machine σ) : Shared σ :=
  { w := { allocator := Ptr.null, m := m, trace := [] },
    holder := none,
    pcs := List.replicate K PC.entry }

/-- Is the program point inside the locked region (lines 133-169)? -/
def PC.locked : PC → Bool
  | PC.mutexCtor => true
  | PC.bitmapCtor => true
  | PC.safeCtor => true
  | PC.publish => true
  | PC.release => true
  | _ => false

/-- The single instance: `AllocatorSafe_TO_ALLOCATOR(&allocatorSafe)`. -/
def theInstance : Ptr := AllocatorSafe_TO_ALLOCATOR (Ptr.obj StaticObj.allocatorSafe)

/-- Number of successful runs of the whole construction sequence in a trace:
the last step, `AllocatorSafe_ctor`, reporting success. -/
def successfulConstructions (t : List Call) : Nat :=
  t.countP (fun c => match c with
    | Call.AllocatorSafe_ctor _ _ _ ok => ok
    | _ => false)

/-! ## Calls made during a run -/

/-- The calls appended to the trace between two states. -/
def callsDuring (before after : World σ) : List Call :=
  after.trace.drop before.trace.length

/-- The reading of the specification under which the construction lock is
not the operational lock: the host function that takes the lock around the
construction differs from the lock function of the `Mutex` handed to the
wrapper. -/
def LockDistinctFromOperational (t : List Call) : Prop :=
  ∀ f mu, constructionLockOf t = some f → operationalMutexOf t = some mu → f ≠ mu.lock

/-- The reading of the specification under which step (1) constructs the
handle the wrapper uses: `Mutex_ctor` and `AllocatorSafe_ctor` are handed the
same pointer. -/
def MutexCtorOnWrapperMutex (t : List Call) : Prop :=
  ∀ p q, mutexCtorArgOf t = some p → wrapperMutexArgOf t = some q → p = q

/-- Is the program point one of the three construction steps? -/
def PC.atCtor : PC → Bool
  | PC.mutexCtor => true
  | PC.bitmapCtor => true
  | PC.safeCtor => true
  | _ => false

/-- The reading of the specification under which construction runs once even
when callers race: in every interleaving of `K` callers, nobody stands at a
construction step while the cached pointer is set, and at most one
construction sequence succeeds. -/
def ConstructsOnce (H : Host σ) (K : Nat) (m : Machine σ) : Prop :=
  ∀ sched : List Nat,
    (∀ (i : Nat) (pc : PC), (runSched H sched (initShared K m)).pcs[i]? = some pc →
      pc.atCtor = true → (runSched H sched (initShared K m)).w.allocator = Ptr.null) ∧
    successfulConstructions (runSched H sched (initShared K m)).w.trace ≤ 1

/-- What holds of the shared state in every interleaving: a caller inside
the locked region holds the lock; the cached pointer is `NULL` or the
instance, the latter only after a successful construction; a caller that has
returned got `NULL` or the instance, the latter only after a successful
construction; a caller about to publish has seen its construction succeed. -/
def Inv (s : Shared σ) : Prop :=
  (∀ (i : Nat) (pc : PC), s.pcs[i]? = some pc → pc.locked = true → s.holder = some i) ∧
  (s.w.allocator = Ptr.null ∨
    (s.w.allocator = theInstance ∧ 1 ≤ successfulConstructions s.w.trace)) ∧
  (∀ (i : Nat) (r : Ptr), s.pcs[i]? = some (PC.done r) →
    r = Ptr.null ∨ (r = theInstance ∧ 1 ≤ successfulConstructions s.w.trace)) ∧
  (∀ i : Nat, s.pcs[i]? = some PC.publish → 1 ≤ successfulConstructions s.w.trace)

/-! ## A scripted host for concrete runs -/

/-- Take the next scripted result; an empty script means success. -/
def nextResult (m : Machine (List Bool)) : Bool × Machine (List Bool) :=
  match m.ext with
  | [] => (true, m)
  | b :: bs => (b, { m with ext := bs })

/-- A host whose constructors and `Allocator_alloc` succeed or fail as the
script says; a successful `Allocator_alloc` returns address `4096`, the
timer returns `2999`. -/
def scriptHost : Host (List Bool) :=
  { Timer_getTimeMs := fun m => (2999, m),
    allocatorMutex_lock := id,
    allocatorMutex_unlock := id,
    nwstackMutex_lock := id,
    nwstackMutex_unlock := id,
    seL4_Yield := id,
    Mutex_ctor := fun _ m => nextResult m,
    BitmapAllocator_ctorStatic := fun _ _ _ _ _ _ m => nextResult m,
    AllocatorSafe_ctor := fun _ _ _ m => nextResult m,
    Allocator_alloc := fun _ _ m => (if (nextResult m).1 then 4096 else 0, (nextResult m).2),
    Allocator_free := fun _ _ m => m }

/-- A fresh process: nothing cached, every byte of memory holding `255`,
and the given script. -/
def freshWorld (script : List Bool) : World (List Bool) :=
  { allocator := Ptr.null, m := { mem := fun _ => 255, ext := script }, trace := [] }

/-- A process whose singleton is already constructed. -/
def readyWorld (script : List Bool) : World (List Bool) :=
  { freshWorld script with allocator := theInstance }

/-! ## Time -/

/-- C4: whenever the host timer returns `t` (an `unsigned int`),
`os_pico_time_ms` returns `t` and `os_pico_time_s` returns `t / 1000` rounded
down, so that `1000 * s <= t < 1000 * s + 1000`. -/
theorem os_pico_time_s_truncates (H : Host σ) (w : World σ) (t : Nat)
    (ht : (H.Timer_getTimeMs w.m).1 = t) (hrange : t < 2 ^ UINT_BITS) :
    (os_pico_time_ms H w).1 = t ∧
    (os_pico_time_s H w).1 = t / 1000 ∧
    (os_pico_time_s H w).1 = (os_pico_time_ms H w).1 / 1000 ∧
    1000 * (os_pico_time_s H w).1 ≤ t ∧
    t < 1000 * (os_pico_time_s H w).1 + 1000 := by
  have hms : (os_pico_time_ms H w).1 = t := by
    simp only [os_pico_time_ms, ht]
    exact Nat.mod_eq_of_lt hrange
  have hs : (os_pico_time_s H w).1 = t / 1000 := by
    simp only [os_pico_time_s, hms]
  refine ⟨hms, hs, by rw [hs, hms], ?_, ?_⟩
  · rw [hs]; omega
  · rw [hs]; omega

/-- C4 at the timer value 2999: milliseconds 2999, seconds 2. -/
theorem os_pico_time_s_truncates_witness :
    (os_pico_time_ms scriptHost (freshWorld [])).1 = 2999 ∧
    (os_pico_time_s scriptHost (freshWorld [])).1 = 2999 / 1000 ∧
    (os_pico_time_s scriptHost (freshWorld [])).1
      = (os_pico_time_ms scriptHost (freshWorld [])).1 / 1000 ∧
    1000 * (os_pico_time_s scriptHost (freshWorld [])).1 ≤ 2999 ∧
    2999 < 1000 * (os_pico_time_s scriptHost (freshWorld [])).1 + 1000 :=
  os_pico_time_s_truncates scriptHost (freshWorld []) 2999 rfl (by decide)

/-! ## The fast path -/

/-- With a cached instance, `getAllocatorInstance` returns it and changes
nothing. -/
theorem getAllocatorInstance_cached (H : Host σ) (w : World σ)
    (h : w.allocator ≠ Ptr.null) :
    getAllocatorInstance H w = (w.allocator, w) := by
  simp [getAllocatorInstance, h]

/-- Without a cached instance, `getAllocatorInstance` is the slow path. -/
theorem getAllocatorInstance_uncached (H : Host σ) (w : World σ)
    (h : w.allocator = Ptr.null) :
    getAllocatorInstance H w = slowPath H w := by
  simp [getAllocatorInstance, h]

/-- C1: when the singleton is available and `Allocator_alloc` returns a
non-null handle `h`, `os_pico_zalloc n` returns `h` and every byte of
`[h, h+n)` is zero afterwards, whatever memory held before. -/
theorem os_pico_zalloc_zero_fills (H : Host σ) (n : Nat) (w : World σ) (h : Nat)
    (hg : (getAllocatorInstance H w).1 ≠ Ptr.null)
    (ha : (H.Allocator_alloc (getAllocatorInstance H w).1 n
            (getAllocatorInstance H w).2.m).1 = h)
    (hh : h ≠ 0) :
    (os_pico_zalloc H n w).1 = h ∧
    ∀ a, h ≤ a → a < h + n → (os_pico_zalloc H n w).2.m.mem a = 0 := by
  subst ha
  constructor
  · simp [os_pico_zalloc, hg, hh]
  · intro a h1 h2
    simp [os_pico_zalloc, hg, hh, memset, memsetMem, h1, h2]

/-- C1 on a fresh process whose memory holds `255` everywhere: the handle is
`4096` and the four bytes from there on are zero. -/
theorem os_pico_zalloc_zero_fills_witness :
    (os_pico_zalloc scriptHost 4 (freshWorld [])).1 = 4096 ∧
    ∀ a, 4096 ≤ a → a < 4096 + 4 →
      (os_pico_zalloc scriptHost 4 (freshWorld [])).2.m.mem a = 0 :=
  os_pico_zalloc_zero_fills scriptHost 4 (freshWorld []) 4096
    (by decide) (by decide) (by decide)

/-- C2: `os_pico_zalloc n` returns `NULL` exactly when `getAllocatorInstance`
returns `NULL` or `Allocator_alloc` returns `NULL`. When the singleton is
unavailable, the only thing done after `getAllocatorInstance` is a log line:
`Allocator_alloc` is not called and memory is untouched. When
`Allocator_alloc` fails, the machine is left as `Allocator_alloc` left it and
the calls are that one call and a log line: no `memset`. -/
theorem os_pico_zalloc_null_iff (H : Host σ) (n : Nat) (w : World σ) :
    ((os_pico_zalloc H n w).1 = 0 ↔
      ((getAllocatorInstance H w).1 = Ptr.null ∨
       (H.Allocator_alloc (getAllocatorInstance H w).1 n
          (getAllocatorInstance H w).2.m).1 = 0)) ∧
    ((getAllocatorInstance H w).1 = Ptr.null →
      (os_pico_zalloc H n w).2.m = (getAllocatorInstance H w).2.m ∧
      (os_pico_zalloc H n w).2.allocator = (getAllocatorInstance H w).2.allocator ∧
      (os_pico_zalloc H n w).2.trace = (getAllocatorInstance H w).2.trace ++
        [Call.Debug_LOG_ERROR "getAllocatorInstance() failed" []]) ∧
    ((getAllocatorInstance H w).1 ≠ Ptr.null →
      (H.Allocator_alloc (getAllocatorInstance H w).1 n
          (getAllocatorInstance H w).2.m).1 = 0 →
      (os_pico_zalloc H n w).2.m =
        (H.Allocator_alloc (getAllocatorInstance H w).1 n
          (getAllocatorInstance H w).2.m).2 ∧
      (os_pico_zalloc H n w).2.allocator = (getAllocatorInstance H w).2.allocator ∧
      (os_pico_zalloc H n w).2.trace = (getAllocatorInstance H w).2.trace ++
        [Call.Allocator_alloc (getAllocatorInstance H w).1 n 0,
         Call.Debug_LOG_ERROR "Allocator_alloc() failed for n=%zu" [n]]) ∧
    (∀ c ∈ (os_pico_zalloc H n w).2.trace, c.isMemset = true →
      (os_pico_zalloc H n w).1 = 0 → c ∈ (getAllocatorInstance H w).2.trace) := by
  refine ⟨?_, ?_, ?_, ?_⟩
  · by_cases hg : (getAllocatorInstance H w).1 = Ptr.null
    · simp [os_pico_zalloc, hg]
    · by_cases hr : (H.Allocator_alloc (getAllocatorInstance H w).1 n
          (getAllocatorInstance H w).2.m).1 = 0
      · simp [os_pico_zalloc, hg, hr]
      · simp [os_pico_zalloc, hg, hr]
  · intro hg
    simp [os_pico_zalloc, hg, Debug_LOG_ERROR, World.emit]
  · intro hg hr
    simp [os_pico_zalloc, hg, hr, Debug_LOG_ERROR, World.emit]
  · intro c hc hm hz
    by_cases hg : (getAllocatorInstance H w).1 = Ptr.null
    · simp [os_pico_zalloc, hg, Debug_LOG_ERROR, World.emit] at hc
      rcases hc with hc | hc
      · exact hc
      · subst hc; simp [Call.isMemset] at hm
    · by_cases hr : (H.Allocator_alloc (getAllocatorInstance H w).1 n
          (getAllocatorInstance H w).2.m).1 = 0
      · simp [os_pico_zalloc, hg, hr, Debug_LOG_ERROR, World.emit] at hc
        rcases hc with hc | hc | hc
        · exact hc
        · subst hc; simp [Call.isMemset] at hm
        · subst hc; simp [Call.isMemset] at hm
      · simp [os_pico_zalloc, hg, hr] at hz

/-- C3: after `getAllocatorInstance`, `os_pico_zfree p` does nothing but log
when the singleton is unavailable (machine and cached pointer as
`getAllocatorInstance` left them, no `Allocator_free`), and otherwise makes
exactly one call, `Allocator_free(a, p)`, with the instance `a` and the
same `p`. -/
theorem os_pico_zfree_delegates (H : Host σ) (p : Nat) (w : World σ) :
    ((getAllocatorInstance H w).1 = Ptr.null →
      (os_pico_zfree H p w).m = (getAllocatorInstance H w).2.m ∧
      (os_pico_zfree H p w).allocator = (getAllocatorInstance H w).2.allocator ∧
      (os_pico_zfree H p w).trace = (getAllocatorInstance H w).2.trace ++
        [Call.Debug_LOG_ERROR "getAllocatorInstance() failed" []]) ∧
    ((getAllocatorInstance H w).1 ≠ Ptr.null →
      (os_pico_zfree H p w).m =
        H.Allocator_free (getAllocatorInstance H w).1 p (getAllocatorInstance H w).2.m ∧
      (os_pico_zfree H p w).allocator = (getAllocatorInstance H w).2.allocator ∧
      (os_pico_zfree H p w).trace = (getAllocatorInstance H w).2.trace ++
        [Call.Allocator_free (getAllocatorInstance H w).1 p]) := by
  constructor
  · intro hg
    simp [os_pico_zfree, hg, Debug_LOG_ERROR, World.emit]
  · intro hg
    simp [os_pico_zfree, hg]

/-! ## The slow path -/

/-- The lock step leaves the cached pointer alone. -/
@[simp] theorem lockStep_allocator (H : Host σ) (w : World σ) :
    (lockStep H w).allocator = w.allocator := rfl

/-- The lock step appends the lock call. -/
@[simp] theorem lockStep_trace (H : Host σ) (w : World σ) :
    (lockStep H w).trace = w.trace ++ [Call.host HostFn.allocatorMutex_lock] := rfl

/-- The unlock step leaves the cached pointer alone. -/
@[simp] theorem unlockStep_allocator (H : Host σ) (w : World σ) :
    (unlockStep H w).allocator = w.allocator := rfl

/-- The unlock step appends the unlock call. -/
@[simp] theorem unlockStep_trace (H : Host σ) (w : World σ) :
    (unlockStep H w).trace = w.trace ++ [Call.host HostFn.allocatorMutex_unlock] := rfl

/-- A log line leaves the cached pointer alone. -/
@[simp] theorem Debug_LOG_ERROR_allocator (fmt : String) (args : List Nat) (w : World σ) :
    (Debug_LOG_ERROR fmt args w).allocator = w.allocator := rfl

/-- A log line appends itself to the trace. -/
@[simp] theorem Debug_LOG_ERROR_trace (fmt : String) (args : List Nat) (w : World σ) :
    (Debug_LOG_ERROR fmt args w).trace = w.trace ++ [Call.Debug_LOG_ERROR fmt args] := rfl

/-- A log line leaves the machine alone. -/
@[simp] theorem Debug_LOG_ERROR_m (fmt : String) (args : List Nat) (w : World σ) :
    (Debug_LOG_ERROR fmt args w).m = w.m := rfl

/-- Step (1) leaves the cached pointer alone. -/
@[simp] theorem mutexCtorStep_allocator (H : Host σ) (w : World σ) :
    (mutexCtorStep H w).2.allocator = w.allocator := rfl

/-- Step (1) appends its call. -/
@[simp] theorem mutexCtorStep_trace (H : Host σ) (w : World σ) :
    (mutexCtorStep H w).2.trace = w.trace ++
      [Call.Mutex_ctor (Ptr.obj StaticObj.allocMutex) (mutexCtorStep H w).1] := rfl

/-- Step (2) leaves the cached pointer alone. -/
@[simp] theorem bitmapCtorStep_allocator (H : Host σ) (w : World σ) :
    (bitmapCtorStep H w).2.allocator = w.allocator := rfl

/-- Step (2) appends its call. -/
@[simp] theorem bitmapCtorStep_trace (H : Host σ) (w : World σ) :
    (bitmapCtorStep H w).2.trace = w.trace ++
      [Call.BitmapAllocator_ctorStatic (Ptr.obj StaticObj.bmAllocator)
        (Ptr.obj StaticObj.mem_pool) (Ptr.obj StaticObj.bmap) (Ptr.obj StaticObj.bbmap)
        EL_SIZE NUM_EL (bitmapCtorStep H w).1] := rfl

/-- Step (3) leaves the cached pointer alone. -/
@[simp] theorem safeCtorStep_allocator (H : Host σ) (w : World σ) :
    (safeCtorStep H w).2.allocator = w.allocator := rfl

/-- Step (3) appends its call. -/
@[simp] theorem safeCtorStep_trace (H : Host σ) (w : World σ) :
    (safeCtorStep H w).2.trace = w.trace ++
      [Call.AllocatorSafe_ctor (Ptr.obj StaticObj.allocatorSafe)
        (Ptr.iface StaticObj.bmAllocator) (Ptr.obj StaticObj.const_allocMutex)
        (safeCtorStep H w).1] := rfl

/-- Publishing caches the instance. -/
@[simp] theorem publishStep_allocator (w : World σ) :
    (publishStep w).allocator = theInstance := rfl

/-- Publishing makes no call. -/
@[simp] theorem publishStep_trace (w : World σ) :
    (publishStep w).trace = w.trace := rfl

/-- The four ways a slow-path run can go, with the state each leaves. -/
theorem slowPath_cases (H : Host σ) (w : World σ) :
    (ctorResult1 H w = false ∧
      (slowPath H w).2.allocator = w.allocator ∧
      (slowPath H w).2.trace = w.trace ++
        [Call.host HostFn.allocatorMutex_lock,
         Call.Mutex_ctor (Ptr.obj StaticObj.allocMutex) false,
         Call.Debug_LOG_ERROR "Mutex_ctor() failed" [],
         Call.host HostFn.allocatorMutex_unlock]) ∨
    (ctorResult1 H w = true ∧ ctorResult2 H w = false ∧
      (slowPath H w).2.allocator = w.allocator ∧
      (slowPath H w).2.trace = w.trace ++
        [Call.host HostFn.allocatorMutex_lock,
         Call.Mutex_ctor (Ptr.obj StaticObj.allocMutex) true,
         Call.BitmapAllocator_ctorStatic (Ptr.obj StaticObj.bmAllocator)
           (Ptr.obj StaticObj.mem_pool) (Ptr.obj StaticObj.bmap) (Ptr.obj StaticObj.bbmap)
           EL_SIZE NUM_EL false,
         Call.Debug_LOG_ERROR "BitmapAllocator_ctorStatic failed" [],
         Call.host HostFn.allocatorMutex_unlock]) ∨
    (ctorResult1 H w = true ∧ ctorResult2 H w = true ∧ ctorResult3 H w = false ∧
      (slowPath H w).2.allocator = w.allocator ∧
      (slowPath H w).2.trace = w.trace ++
        [Call.host HostFn.allocatorMutex_lock,
         Call.Mutex_ctor (Ptr.obj StaticObj.allocMutex) true,
         Call.BitmapAllocator_ctorStatic (Ptr.obj StaticObj.bmAllocator)
           (Ptr.obj StaticObj.mem_pool) (Ptr.obj StaticObj.bmap) (Ptr.obj StaticObj.bbmap)
           EL_SIZE NUM_EL true,
         Call.AllocatorSafe_ctor (Ptr.obj StaticObj.allocatorSafe)
           (Ptr.iface StaticObj.bmAllocator) (Ptr.obj StaticObj.const_allocMutex) false,
         Call.Debug_LOG_ERROR "BitmapAllocator_ctorStatic failed" [],
         Call.host HostFn.allocatorMutex_unlock]) ∨
    (ctorResult1 H w = true ∧ ctorResult2 H w = true ∧ ctorResult3 H w = true ∧
      (slowPath H w).2.allocator = theInstance ∧
      (slowPath H w).2.trace = w.trace ++
        [Call.host HostFn.allocatorMutex_lock,
         Call.Mutex_ctor (Ptr.obj StaticObj.allocMutex) true,
         Call.BitmapAllocator_ctorStatic (Ptr.obj StaticObj.bmAllocator)
           (Ptr.obj StaticObj.mem_pool) (Ptr.obj StaticObj.bmap) (Ptr.obj StaticObj.bbmap)
           EL_SIZE NUM_EL true,
         Call.AllocatorSafe_ctor (Ptr.obj StaticObj.allocatorSafe)
           (Ptr.iface StaticObj.bmAllocator) (Ptr.obj StaticObj.const_allocMutex) true,
         Call.host HostFn.allocatorMutex_unlock]) := by
  cases h1 : ctorResult1 H w
  · left
    simp only [ctorResult1] at h1
    refine ⟨rfl, ?_, ?_⟩
    · simp only [slowPath, constructionBody, h1]
      simp
    · simp only [slowPath, constructionBody, h1]
      simp [h1]
  · right
    simp only [ctorResult1] at h1
    cases h2 : ctorResult2 H w
    · left
      simp only [ctorResult2] at h2
      refine ⟨rfl, rfl, ?_, ?_⟩
      · simp only [slowPath, constructionBody, h1, h2]
        simp
      · simp only [slowPath, constructionBody, h1, h2]
        simp [h1, h2]
    · right
      simp only [ctorResult2] at h2
      cases h3 : ctorResult3 H w
      · left
        simp only [ctorResult3] at h3
        refine ⟨rfl, rfl, rfl, ?_, ?_⟩
        · simp only [slowPath, constructionBody, h1, h2, h3]
          simp
        · simp only [slowPath, constructionBody, h1, h2, h3]
          simp [h1, h2, h3]
      · right
        simp only [ctorResult3] at h3
        refine ⟨rfl, rfl, rfl, ?_, ?_⟩
        · simp only [slowPath, constructionBody, h1, h2, h3]
          simp
        · simp only [slowPath, constructionBody, h1, h2, h3]
          simp [h1, h2, h3]

/-- The calls made during a run that only appends to the trace. -/
theorem callsDuring_append (w w' : World σ) (d : List Call)
    (h : w'.trace = w.trace ++ d) : callsDuring w w' = d := by
  simp [callsDuring, h]

/-- With a cached instance, one front-end call keeps the cached pointer and
makes no construction call. -/
theorem runOp_cached (H : Host σ) (w : World σ) (op : Op)
    (h : w.allocator ≠ Ptr.null) :
    (runOp H w op).allocator = w.allocator ∧
    ∃ d, (runOp H w op).trace = w.trace ++ d ∧
      ∀ c ∈ d, c.isCtor = false ∧ c ≠ Call.host HostFn.allocatorMutex_lock ∧
        c ≠ Call.host HostFn.allocatorMutex_unlock := by
  cases op with
  | zalloc n =>
    by_cases hr : (H.Allocator_alloc w.allocator n w.m).1 = 0
    · refine ⟨?_, [Call.Allocator_alloc w.allocator n 0,
        Call.Debug_LOG_ERROR "Allocator_alloc() failed for n=%zu" [n]], ?_, ?_⟩
      · simp [runOp, os_pico_zalloc, getAllocatorInstance_cached H w h, h, hr]
      · simp [runOp, os_pico_zalloc, getAllocatorInstance_cached H w h, h, hr]
      · intro c hc
        simp at hc
        rcases hc with hc | hc <;> subst hc <;> simp [Call.isCtor]
    · refine ⟨?_, [Call.Allocator_alloc w.allocator n (H.Allocator_alloc w.allocator n w.m).1,
        Call.memset (H.Allocator_alloc w.allocator n w.m).1 0 n], ?_, ?_⟩
      · simp [runOp, os_pico_zalloc, getAllocatorInstance_cached H w h, h, hr, memset]
      · simp [runOp, os_pico_zalloc, getAllocatorInstance_cached H w h, h, hr, memset]
      · intro c hc
        simp at hc
        rcases hc with hc | hc <;> subst hc <;> simp [Call.isCtor]
  | zfree p =>
    refine ⟨?_, [Call.Allocator_free w.allocator p], ?_, ?_⟩
    · simp [runOp, os_pico_zfree, getAllocatorInstance_cached H w h, h]
    · simp [runOp, os_pico_zfree, getAllocatorInstance_cached H w h, h]
    · intro c hc
      simp at hc
      subst hc
      simp [Call.isCtor]

/-- With a cached instance, any sequence of front-end calls keeps the cached
pointer and makes no construction call. -/
theorem runOps_cached (H : Host σ) (ops : List Op) (w : World σ)
    (h : w.allocator ≠ Ptr.null) :
    (runOps H ops w).allocator = w.allocator ∧
    ∃ d, (runOps H ops w).trace = w.trace ++ d ∧
      ∀ c ∈ d, c.isCtor = false ∧ c ≠ Call.host HostFn.allocatorMutex_lock ∧
        c ≠ Call.host HostFn.allocatorMutex_unlock := by
  induction ops generalizing w with
  | nil => exact ⟨rfl, [], by simp [runOps], by simp⟩
  | cons op ops ih =>
    obtain ⟨ha, d1, ht1, hd1⟩ := runOp_cached H w op h
    have h' : (runOp H w op).allocator ≠ Ptr.null := by rw [ha]; exact h
    obtain ⟨ha2, d2, ht2, hd2⟩ := ih (runOp H w op) h'
    have hrun : runOps H (op :: ops) w = runOps H ops (runOp H w op) := rfl
    refine ⟨by rw [hrun, ha2, ha], d1 ++ d2, ?_, ?_⟩
    · rw [hrun, ht2, ht1, List.append_assoc]
    · intro c hc
      rcases List.mem_append.mp hc with hc | hc
      · exact hd1 c hc
      · exact hd2 c hc

/-- C5: once the cached pointer is set, `getAllocatorInstance` returns it and
changes nothing (no lock, no construction step, cached pointer as before);
after any sequence of `os_pico_zalloc` / `os_pico_zfree` calls the cached
pointer is still the same, `getAllocatorInstance` still returns it, and none
of the calls made in between is a construction step or a lock or unlock. -/
theorem construction_idempotent (H : Host σ) (w : World σ) (ops : List Op)
    (h : w.allocator ≠ Ptr.null) :
    getAllocatorInstance H w = (w.allocator, w) ∧
    (runOps H ops w).allocator = w.allocator ∧
    (getAllocatorInstance H (runOps H ops w)).1 = w.allocator ∧
    (runOps H ops w).trace = w.trace ++ callsDuring w (runOps H ops w) ∧
    ∀ c ∈ callsDuring w (runOps H ops w),
      c.isCtor = false ∧ c ≠ Call.host HostFn.allocatorMutex_lock ∧
        c ≠ Call.host HostFn.allocatorMutex_unlock := by
  obtain ⟨ha, d, ht, hd⟩ := runOps_cached H ops w h
  have h' : (runOps H ops w).allocator ≠ Ptr.null := by rw [ha]; exact h
  refine ⟨getAllocatorInstance_cached H w h, ha, ?_, ?_, ?_⟩
  · rw [getAllocatorInstance_cached H _ h', ha]
  · rw [callsDuring_append w _ d ht]; exact ht
  · rw [callsDuring_append w _ d ht]; exact hd

/-- C5 on a constructed process: an allocation that succeeds, one that
fails, and a free leave the cached instance in place. -/
theorem construction_idempotent_witness :
    (readyWorld [true, false]).allocator ≠ Ptr.null ∧
    getAllocatorInstance scriptHost (readyWorld [true, false])
      = (theInstance, readyWorld [true, false]) ∧
    (runOps scriptHost [Op.zalloc 4, Op.zalloc 8, Op.zfree 4096]
      (readyWorld [true, false])).allocator = theInstance :=
  ⟨by decide,
   (construction_idempotent scriptHost (readyWorld [true, false])
     [Op.zalloc 4, Op.zalloc 8, Op.zfree 4096] (by decide)).1,
   (construction_idempotent scriptHost (readyWorld [true, false])
     [Op.zalloc 4, Op.zalloc 8, Op.zfree 4096] (by decide)).2.1⟩

/-! ## Retry after a failed construction -/

/-- C9, refuted on a fresh process where every step succeeds: the lock taken
around the construction is `allocatorMutex_lock`, and so is the lock of the
`Mutex` handed to `AllocatorSafe_ctor`. -/
theorem construction_lock_is_operational_lock :
    ¬ LockDistinctFromOperational
        (callsDuring (freshWorld []) (getAllocatorInstance scriptHost (freshWorld [])).2) := by
  intro h
  exact h HostFn.allocatorMutex_lock const_allocMutex (by decide) (by decide) rfl

/-- C9 as amended: in every slow-path run the construction is bracketed by
the lock and unlock functions of `const_allocMutex`, that is by
`allocatorMutex_lock` and `allocatorMutex_unlock`, and the `Mutex` handed to
`AllocatorSafe_ctor`, whenever that step is reached, is `const_allocMutex`
itself: one host mutex serves both purposes. -/
theorem construction_lock_same_as_operational (H : Host σ) (w : World σ)
    (h0 : w.allocator = Ptr.null) :
    constructionLockOf (callsDuring w (getAllocatorInstance H w).2)
      = some const_allocMutex.lock ∧
    constructionUnlockOf (callsDuring w (getAllocatorInstance H w).2)
      = some const_allocMutex.unlock ∧
    const_allocMutex.lock = HostFn.allocatorMutex_lock ∧
    const_allocMutex.unlock = HostFn.allocatorMutex_unlock ∧
    (∀ mu, operationalMutexOf (callsDuring w (getAllocatorInstance H w).2) = some mu →
      mu = const_allocMutex) ∧
    ((ctorResult1 H w = true ∧ ctorResult2 H w = true) →
      operationalMutexOf (callsDuring w (getAllocatorInstance H w).2)
        = some const_allocMutex) := by
  rw [getAllocatorInstance_uncached H w h0]
  rcases slowPath_cases H w with
    ⟨h1, _, ht⟩ | ⟨h1, h2, _, ht⟩ | ⟨h1, h2, h3, _, ht⟩ | ⟨h1, h2, h3, _, ht⟩
  · rw [callsDuring_append w _ _ ht]
    refine ⟨rfl, rfl, rfl, rfl, ?_, ?_⟩
    · intro mu hmu; cases hmu
    · rintro ⟨h1', _⟩; rw [h1] at h1'; cases h1'
  · rw [callsDuring_append w _ _ ht]
    refine ⟨rfl, rfl, rfl, rfl, ?_, ?_⟩
    · intro mu hmu; cases hmu
    · rintro ⟨_, h2'⟩; rw [h2] at h2'; cases h2'
  · rw [callsDuring_append w _ _ ht]
    refine ⟨rfl, rfl, rfl, rfl, ?_, ?_⟩
    · intro mu hmu; cases hmu; rfl
    · intro _; rfl
  · rw [callsDuring_append w _ _ ht]
    refine ⟨rfl, rfl, rfl, rfl, ?_, ?_⟩
    · intro mu hmu; cases hmu; rfl
    · intro _; rfl

/-- C9 as amended, on a fresh process where every step succeeds. -/
theorem construction_lock_same_as_operational_witness :
    (freshWorld []).allocator = Ptr.null ∧
    constructionLockOf (callsDuring (freshWorld [])
        (getAllocatorInstance scriptHost (freshWorld [])).2)
      = some const_allocMutex.lock ∧
    operationalMutexOf (callsDuring (freshWorld [])
        (getAllocatorInstance scriptHost (freshWorld [])).2)
      = some const_allocMutex :=
  ⟨rfl,
   (construction_lock_same_as_operational scriptHost (freshWorld []) rfl).1,
   (construction_lock_same_as_operational scriptHost (freshWorld []) rfl).2.2.2.2.2
     ⟨by decide, by decide⟩⟩

/-! ## Arguments of the construction steps -/

/-- C10 evaluated on a fresh process where every step succeeds: the calls of
the slow path, with `Mutex_ctor` handed the address of the pointer variable
`allocMutex`, which is not a `Mutex`, and `AllocatorSafe_ctor` handed the
address of `const_allocMutex`; the two pointers differ. The bitmap allocator
is given the pool with element size 8 and 131072 elements, 8 * 131072 being
the pool size. -/
theorem mutex_ctor_argument_is_not_the_wrapper_mutex :
    callsDuring (freshWorld []) (getAllocatorInstance scriptHost (freshWorld [])).2
      = [Call.host HostFn.allocatorMutex_lock,
         Call.Mutex_ctor (Ptr.obj StaticObj.allocMutex) true,
         Call.BitmapAllocator_ctorStatic (Ptr.obj StaticObj.bmAllocator)
           (Ptr.obj StaticObj.mem_pool) (Ptr.obj StaticObj.bmap) (Ptr.obj StaticObj.bbmap)
           8 131072 true,
         Call.AllocatorSafe_ctor (Ptr.obj StaticObj.allocatorSafe)
           (Ptr.iface StaticObj.bmAllocator) (Ptr.obj StaticObj.const_allocMutex) true,
         Call.host HostFn.allocatorMutex_unlock] ∧
    derefMutex (Ptr.obj StaticObj.allocMutex) = none ∧
    derefMutex (Ptr.obj StaticObj.const_allocMutex) = some const_allocMutex ∧
    ¬ MutexCtorOnWrapperMutex
        (callsDuring (freshWorld []) (getAllocatorInstance scriptHost (freshWorld [])).2) ∧
    EL_SIZE = 8 ∧ NUM_EL = 131072 ∧
    EL_SIZE * NUM_EL = OS_NETWORK_STACK_MEMORY_POOL_SIZE := by
  refine ⟨by decide, rfl, rfl, ?_, rfl, by decide, by decide⟩
  intro h
  have := h (Ptr.obj StaticObj.allocMutex) (Ptr.obj StaticObj.const_allocMutex)
    (by decide) (by decide)
  exact absurd this (by decide)

/-- In every slow-path run, whatever the host does, `Mutex_ctor` is handed
the address of the pointer variable `allocMutex` and `AllocatorSafe_ctor`,
when reached, the address of `const_allocMutex`. -/
theorem slow_path_ctor_arguments (H : Host σ) (w : World σ)
    (h0 : w.allocator = Ptr.null) :
    mutexCtorArgOf (callsDuring w (getAllocatorInstance H w).2)
      = some (Ptr.obj StaticObj.allocMutex) ∧
    ∀ q, wrapperMutexArgOf (callsDuring w (getAllocatorInstance H w).2) = some q →
      q = Ptr.obj StaticObj.const_allocMutex ∧ q ≠ Ptr.obj StaticObj.allocMutex := by
  rw [getAllocatorInstance_uncached H w h0]
  rcases slowPath_cases H w with
    ⟨_, _, ht⟩ | ⟨_, _, _, ht⟩ | ⟨_, _, _, _, ht⟩ | ⟨_, _, _, _, ht⟩
  · rw [callsDuring_append w _ _ ht]
    exact ⟨rfl, fun q hq => by cases hq⟩
  · rw [callsDuring_append w _ _ ht]
    exact ⟨rfl, fun q hq => by cases hq⟩
  · rw [callsDuring_append w _ _ ht]
    exact ⟨rfl, fun q hq => by cases hq; exact ⟨rfl, by decide⟩⟩
  · rw [callsDuring_append w _ _ ht]
    exact ⟨rfl, fun q hq => by cases hq; exact ⟨rfl, by decide⟩⟩

/-! ## Interleaved callers -/

/-- A single caller run statement by statement ends where
`getAllocatorInstance` ends: same returned pointer, same world, lock
free. -/
theorem single_caller_agrees (H : Host σ) (w : World σ) :
    (runSched H [0, 0, 0, 0, 0, 0, 0, 0] { w := w, holder := none, pcs := [PC.entry] }).pcs
      = [PC.done (getAllocatorInstance H w).1] ∧
    (runSched H [0, 0, 0, 0, 0, 0, 0, 0] { w := w, holder := none, pcs := [PC.entry] }).w
      = (getAllocatorInstance H w).2 ∧
    (runSched H [0, 0, 0, 0, 0, 0, 0, 0] { w := w, holder := none, pcs := [PC.entry] }).holder
      = none := by
  by_cases h0 : w.allocator = Ptr.null
  · rw [getAllocatorInstance_uncached H w h0]
    cases h1 : (mutexCtorStep H (lockStep H w)).1
    · simp [runSched, step, Shared.goto, h0, h1, slowPath, constructionBody]
    · cases h2 : (bitmapCtorStep H (mutexCtorStep H (lockStep H w)).2).1
      · simp [runSched, step, Shared.goto, h0, h1, h2, slowPath, constructionBody]
      · cases h3 : (safeCtorStep H (bitmapCtorStep H (mutexCtorStep H (lockStep H w)).2).2).1
        · simp [runSched, step, Shared.goto, h0, h1, h2, h3, slowPath, constructionBody]
        · simp [runSched, step, Shared.goto, h0, h1, h2, h3, slowPath, constructionBody]
  · rw [getAllocatorInstance_cached H w h0]
    simp [runSched, step, Shared.goto, h0]

/-- C7 evaluated with two callers racing on first use, on a host where every
step succeeds: both pass the test of line 109 before either publishes;
caller 0 constructs, publishes and unlocks; caller 1 then takes the lock and,
there being no second test of the cached pointer under the lock, stands
before `Mutex_ctor` although the cached pointer is set; its next statement
is that call, and in the end the construction sequence has succeeded twice
over the same static objects, where construct-once requires one. Both
callers return the same instance. -/
theorem racing_callers_construct_twice :
    ¬ ConstructsOnce scriptHost 2 (freshWorld []).m ∧
    (runSched scriptHost [0, 1, 0, 0, 0, 0, 0, 0, 1]
      (initShared 2 (freshWorld []).m)).w.allocator = theInstance ∧
    (runSched scriptHost [0, 1, 0, 0, 0, 0, 0, 0, 1]
      (initShared 2 (freshWorld []).m)).pcs = [PC.ret, PC.mutexCtor] ∧
    (step scriptHost 1 (runSched scriptHost [0, 1, 0, 0, 0, 0, 0, 0, 1]
      (initShared 2 (freshWorld []).m))).w.trace
      = (runSched scriptHost [0, 1, 0, 0, 0, 0, 0, 0, 1]
          (initShared 2 (freshWorld []).m)).w.trace
        ++ [Call.Mutex_ctor (Ptr.obj StaticObj.allocMutex) true] ∧
    successfulConstructions (runSched scriptHost
      [0, 1, 0, 0, 0, 0, 0, 0, 1, 1, 1, 1, 1, 1, 0, 1]
      (initShared 2 (freshWorld []).m)).w.trace = 2 ∧
    (runSched scriptHost [0, 1, 0, 0, 0, 0, 0, 0, 1, 1, 1, 1, 1, 1, 0, 1]
      (initShared 2 (freshWorld []).m)).pcs = [PC.done theInstance, PC.done theInstance] := by
  refine ⟨?_, by decide, by decide, by decide, by decide, by decide⟩
  intro h
  have h2 := (h [0, 1, 0, 0, 0, 0, 0, 0, 1, 1, 1, 1, 1, 1, 0, 1]).2
  exact absurd h2 (by decide)

/-- Reading a list after one position was overwritten. -/
theorem getElem?_set_cases (l : List PC) (i j : Nat) (a b : PC)
    (h : (l.set i a)[j]? = some b) :
    (j = i ∧ b = a) ∨ (j ≠ i ∧ l[j]? = some b) := by
  by_cases hij : i = j
  · subst hij
    left
    rw [List.getElem?_set] at h
    simp at h
    exact ⟨rfl, h.2.symm⟩
  · right
    rw [List.getElem?_set_ne hij] at h
    exact ⟨fun e => hij e.symm, h⟩

/-- Appending a call never lowers the number of successful constructions. -/
theorem successfulConstructions_append_ge (t d : List Call) :
    successfulConstructions t ≤ successfulConstructions (t ++ d) := by
  simp [successfulConstructions]

/-- A successful `AllocatorSafe_ctor` at the end of a trace counts. -/
theorem successfulConstructions_safe (t : List Call) (a b c : Ptr) :
    1 ≤ successfulConstructions (t ++ [Call.AllocatorSafe_ctor a b c true]) := by
  simp [successfulConstructions]

/-- A step that moves caller `i` between two program points outside the
locked region, leaving the world and the lock alone, keeps the invariant,
provided the new point is not `done` with anything but the cached
pointer. -/
theorem Inv_goto (s : Shared σ) (i : Nat) (pc : PC) (hI : Inv s)
    (hl : pc.locked = false)
    (hd : ∀ r, pc = PC.done r → r = s.w.allocator) :
    Inv (s.goto i pc) := by
  obtain ⟨h1, h2, h3, h4⟩ := hI
  refine ⟨?_, h2, ?_, ?_⟩
  · intro j q hj hq
    rcases getElem?_set_cases _ _ _ _ _ hj with ⟨_, rfl⟩ | ⟨_, hj'⟩
    · rw [hl] at hq; cases hq
    · exact h1 j q hj' hq
  · intro j r hj
    rcases getElem?_set_cases _ _ _ _ _ hj with ⟨_, he⟩ | ⟨_, hj'⟩
    · have := hd r he.symm
      subst this
      exact h2
    · exact h3 j r hj'
  · intro j hj
    rcases getElem?_set_cases _ _ _ _ _ hj with ⟨_, he⟩ | ⟨_, hj'⟩
    · subst he; cases hl
    · exact h4 j hj'

/-- A step of the lock holder `i` that stays inside the locked region, only
appends calls `d` to the trace and leaves the cached pointer alone keeps the
invariant, provided the step justifies a move to `publish`. -/
theorem Inv_locked_step (s : Shared σ) (i : Nat) (pc0 pc : PC) (w' : World σ)
    (d : List Call) (hI : Inv s)
    (h0 : s.pcs[i]? = some pc0) (hl0 : pc0.locked = true) (hl : pc.locked = true)
    (ha : w'.allocator = s.w.allocator) (ht : w'.trace = s.w.trace ++ d)
    (hp : pc = PC.publish → 1 ≤ successfulConstructions w'.trace) :
    Inv { s with w := w', pcs := s.pcs.set i pc } := by
  obtain ⟨h1, h2, h3, h4⟩ := hI
  have hmono : successfulConstructions s.w.trace ≤ successfulConstructions w'.trace := by
    rw [ht]; exact successfulConstructions_append_ge _ _
  refine ⟨?_, ?_, ?_, ?_⟩
  · intro j q hj hq
    rcases getElem?_set_cases _ _ _ _ _ hj with ⟨hji, _⟩ | ⟨_, hj'⟩
    · subst hji; exact h1 j pc0 h0 hl0
    · exact h1 j q hj' hq
  · show w'.allocator = Ptr.null ∨ _
    rw [ha]
    rcases h2 with h2 | ⟨h2, h2'⟩
    · exact Or.inl h2
    · exact Or.inr ⟨h2, le_trans h2' hmono⟩
  · intro j r hj
    rcases getElem?_set_cases _ _ _ _ _ hj with ⟨_, he⟩ | ⟨_, hj'⟩
    · subst he; cases hl
    · rcases h3 j r hj' with h | ⟨h, h'⟩
      · exact Or.inl h
      · exact Or.inr ⟨h, le_trans h' hmono⟩
  · intro j hj
    rcases getElem?_set_cases _ _ _ _ _ hj with ⟨_, he⟩ | ⟨_, hj'⟩
    · exact hp he.symm
    · exact le_trans (h4 j hj') hmono

/-- Every statement of every caller keeps the invariant. -/
theorem step_Inv (H : Host σ) (i : Nat) (s : Shared σ) (hI : Inv s) :
    Inv (step H i s) := by
  unfold step
  split
  · exact hI
  · -- line 109
    split
    · exact Inv_goto s i _ hI rfl (fun r hr => by cases hr; rfl)
    · exact Inv_goto s i _ hI rfl (fun r hr => by cases hr)
  · -- line 131
    rename_i hpc
    split
    · exact hI
    · rename_i hh
      obtain ⟨h1, h2, h3, h4⟩ := hI
      have hmono : successfulConstructions s.w.trace
          ≤ successfulConstructions (lockStep H s.w).trace := by
        rw [lockStep_trace]; exact successfulConstructions_append_ge _ _
      refine ⟨?_, ?_, ?_, ?_⟩
      · intro j q hj hq
        rcases getElem?_set_cases _ _ _ _ _ hj with ⟨hji, _⟩ | ⟨_, hj'⟩
        · subst hji; rfl
        · have := h1 j q hj' hq
          rw [hh] at this; cases this
      · show (lockStep H s.w).allocator = Ptr.null ∨ _
        rw [lockStep_allocator]
        rcases h2 with h2 | ⟨h2, h2'⟩
        · exact Or.inl h2
        · exact Or.inr ⟨h2, le_trans h2' hmono⟩
      · intro j r hj
        rcases getElem?_set_cases _ _ _ _ _ hj with ⟨_, he⟩ | ⟨_, hj'⟩
        · cases he
        · rcases h3 j r hj' with h | ⟨h, h'⟩
          · exact Or.inl h
          · exact Or.inr ⟨h, le_trans h' hmono⟩
      · intro j hj
        rcases getElem?_set_cases _ _ _ _ _ hj with ⟨_, he⟩ | ⟨_, hj'⟩
        · cases he
        · exact le_trans (h4 j hj') hmono
  · -- line 135
    rename_i hpc
    dsimp only
    split
    · exact Inv_locked_step s i _ PC.release _ _ hI hpc rfl rfl rfl
        (by rw [Debug_LOG_ERROR_trace, mutexCtorStep_trace, List.append_assoc])
        (fun h => by cases h)
    · exact Inv_locked_step s i _ PC.bitmapCtor _ _ hI hpc rfl rfl rfl
        (mutexCtorStep_trace H s.w) (fun h => by cases h)
  · -- line 142
    rename_i hpc
    dsimp only
    split
    · exact Inv_locked_step s i _ PC.release _ _ hI hpc rfl rfl rfl
        (by rw [Debug_LOG_ERROR_trace, bitmapCtorStep_trace, List.append_assoc])
        (fun h => by cases h)
    · exact Inv_locked_step s i _ PC.safeCtor _ _ hI hpc rfl rfl rfl
        (bitmapCtorStep_trace H s.w) (fun h => by cases h)
  · -- line 155
    rename_i hpc
    dsimp only
    split
    · exact Inv_locked_step s i _ PC.release _ _ hI hpc rfl rfl rfl
        (by rw [Debug_LOG_ERROR_trace, safeCtorStep_trace, List.append_assoc])
        (fun h => by cases h)
    · rename_i hok
      have hok' : (safeCtorStep H s.w).1 = true := by
        cases h : (safeCtorStep H s.w).1
        · rw [h] at hok; exact absurd rfl hok
        · rfl
      exact Inv_locked_step s i _ PC.publish _ _ hI hpc rfl rfl rfl
        (safeCtorStep_trace H s.w)
        (fun _ => by
          rw [safeCtorStep_trace, hok']
          exact successfulConstructions_safe _ _ _ _)
  · -- line 165
    rename_i hpc
    obtain ⟨h1, h2, h3, h4⟩ := hI
    have hs : 1 ≤ successfulConstructions s.w.trace := h4 i hpc
    refine ⟨?_, Or.inr ⟨rfl, hs⟩, ?_, ?_⟩
    · intro j q hj hq
      rcases getElem?_set_cases _ _ _ _ _ hj with ⟨hji, _⟩ | ⟨_, hj'⟩
      · subst hji; exact h1 j PC.publish hpc rfl
      · exact h1 j q hj' hq
    · intro j r hj
      rcases getElem?_set_cases _ _ _ _ _ hj with ⟨_, he⟩ | ⟨_, hj'⟩
      · cases he
      · exact h3 j r hj'
    · intro j _
      exact hs
  · -- line 169
    rename_i hpc
    obtain ⟨h1, h2, h3, h4⟩ := hI
    have hmono : successfulConstructions s.w.trace
        ≤ successfulConstructions (unlockStep H s.w).trace := by
      rw [unlockStep_trace]; exact successfulConstructions_append_ge _ _
    have hhold : s.holder = some i := h1 i PC.release hpc rfl
    refine ⟨?_, ?_, ?_, ?_⟩
    · intro j q hj hq
      rcases getElem?_set_cases _ _ _ _ _ hj with ⟨_, he⟩ | ⟨hne, hj'⟩
      · subst he; cases hq
      · have := h1 j q hj' hq
        rw [hhold] at this
        exact absurd (Option.some.inj this).symm hne
    · show (unlockStep H s.w).allocator = Ptr.null ∨ _
      rw [unlockStep_allocator]
      rcases h2 with h2 | ⟨h2, h2'⟩
      · exact Or.inl h2
      · exact Or.inr ⟨h2, le_trans h2' hmono⟩
    · intro j r hj
      rcases getElem?_set_cases _ _ _ _ _ hj with ⟨_, he⟩ | ⟨_, hj'⟩
      · cases he
      · rcases h3 j r hj' with h | ⟨h, h'⟩
        · exact Or.inl h
        · exact Or.inr ⟨h, le_trans h' hmono⟩
    · intro j hj
      rcases getElem?_set_cases _ _ _ _ _ hj with ⟨_, he⟩ | ⟨_, hj'⟩
      · cases he
      · exact le_trans (h4 j hj') hmono
  · -- line 171
    exact Inv_goto s i _ hI rfl (fun r hr => by cases hr; rfl)
  · exact hI

/-- The invariant holds at the start. -/
theorem initShared_Inv (K : Nat) (m : Machine σ) : Inv (initShared K m) := by
  refine ⟨?_, Or.inl rfl, ?_, ?_⟩
  · intro i pc hi hl
    simp only [initShared] at hi
    rw [List.getElem?_replicate] at hi
    split at hi
    · cases hi; cases hl
    · cases hi
  · intro i r hi
    simp only [initShared] at hi
    rw [List.getElem?_replicate] at hi
    split at hi <;> cases hi
  · intro i hi
    simp only [initShared] at hi
    rw [List.getElem?_replicate] at hi
    split at hi <;> cases hi

/-- The invariant holds along every schedule. -/
theorem runSched_Inv (H : Host σ) (sched : List Nat) (s : Shared σ) (hI : Inv s) :
    Inv (runSched H sched s) := by
  induction sched generalizing s with
  | nil => exact hI
  | cons i rest ih => exact ih (step H i s) (step_Inv H i s hI)

/-- A statement of a caller never replaces a cached instance. -/
theorem step_keeps_instance (H : Host σ) (i : Nat) (s : Shared σ)
    (h : s.w.allocator = theInstance) : (step H i s).w.allocator = theInstance := by
  unfold step
  split
  · exact h
  · split <;> exact h
  · split <;> exact h
  · dsimp only
    split <;> exact h
  · dsimp only
    split <;> exact h
  · dsimp only
    split <;> exact h
  · rfl
  · exact h
  · exact h
  · exact h

/-- No schedule replaces a cached instance. -/
theorem runSched_keeps_instance (H : Host σ) (sched : List Nat) (s : Shared σ)
    (h : s.w.allocator = theInstance) :
    (runSched H sched s).w.allocator = theInstance := by
  induction sched generalizing s with
  | nil => exact h
  | cons i rest ih => exact ih (step H i s) (step_keeps_instance H i s h)

/-- What the construction lock does guarantee: in every interleaving of `K`
callers that starts from the unconstructed state, a caller standing at a construction step, at the
publication or at the unlock holds the construction lock, so at most one
caller is inside that region; the cached pointer is `NULL` or the one
instance; a caller that has returned a non-null pointer has returned the
instance, and a construction sequence has succeeded before; any two callers
that returned non-null returned the same pointer; and a cached instance
stays cached along every continuation. -/
theorem racing_callers_serialized (H : Host σ) (K : Nat) (m : Machine σ)
    (sched : List Nat) :
    (∀ (i : Nat) (pc : PC), (runSched H sched (initShared K m)).pcs[i]? = some pc →
      pc.locked = true → (runSched H sched (initShared K m)).holder = some i) ∧
    (∀ (i j : Nat) (p q : PC), (runSched H sched (initShared K m)).pcs[i]? = some p →
      (runSched H sched (initShared K m)).pcs[j]? = some q →
      p.locked = true → q.locked = true → i = j) ∧
    ((runSched H sched (initShared K m)).w.allocator = Ptr.null ∨
      (runSched H sched (initShared K m)).w.allocator = theInstance) ∧
    (∀ (i : Nat) (r : Ptr),
      (runSched H sched (initShared K m)).pcs[i]? = some (PC.done r) → r ≠ Ptr.null →
      r = theInstance ∧
      1 ≤ successfulConstructions (runSched H sched (initShared K m)).w.trace) ∧
    (∀ (i j : Nat) (r r' : Ptr),
      (runSched H sched (initShared K m)).pcs[i]? = some (PC.done r) →
      (runSched H sched (initShared K m)).pcs[j]? = some (PC.done r') →
      r ≠ Ptr.null → r' ≠ Ptr.null → r = r') ∧
    (∀ more : List Nat,
      (runSched H sched (initShared K m)).w.allocator ≠ Ptr.null →
      (runSched H more (runSched H sched (initShared K m))).w.allocator
        = (runSched H sched (initShared K m)).w.allocator) := by
  obtain ⟨h1, h2, h3, _⟩ := runSched_Inv H sched (initShared K m) (initShared_Inv K m)
  have hdone : ∀ (i : Nat) (r : Ptr),
      (runSched H sched (initShared K m)).pcs[i]? = some (PC.done r) → r ≠ Ptr.null →
      r = theInstance ∧
      1 ≤ successfulConstructions (runSched H sched (initShared K m)).w.trace := by
    intro i r hi hr
    rcases h3 i r hi with h | h
    · exact absurd h hr
    · exact h
  refine ⟨h1, ?_, ?_, hdone, ?_, ?_⟩
  · intro i j p q hi hj hp hq
    have a := h1 i p hi hp
    have b := h1 j q hj hq
    rw [a] at b
    exact Option.some.inj b
  · rcases h2 with h | ⟨h, _⟩
    · exact Or.inl h
    · exact Or.inr h
  · intro i j r r' hi hj hr hr'
    rw [(hdone i r hi hr).1, (hdone j r' hj hr').1]
  · intro more hne
    rcases h2 with h | ⟨h, _⟩
    · exact absurd h hne
    · rw [h]; exact runSched_keeps_instance H more _ h

/-! ## Concrete runs of the front end -/

/-- C2 on fresh processes: with all steps and the allocation succeeding the
result is `4096`; with `Mutex_ctor` failing, and with the allocation failing,
the result is `NULL` and the trace holds no `memset`. -/
theorem os_pico_zalloc_null_iff_witness :
    (os_pico_zalloc scriptHost 4 (freshWorld [])).1 = 4096 ∧
    (os_pico_zalloc scriptHost 4 (freshWorld [false])).1 = 0 ∧
    (os_pico_zalloc scriptHost 4 (freshWorld [true, true, true, false])).1 = 0 ∧
    (os_pico_zalloc scriptHost 4 (freshWorld [false])).2.trace
      = (getAllocatorInstance scriptHost (freshWorld [false])).2.trace ++
        [Call.Debug_LOG_ERROR "getAllocatorInstance() failed" []] ∧
    (os_pico_zalloc scriptHost 4 (freshWorld [true, true, true, false])).2.trace
      = (getAllocatorInstance scriptHost (freshWorld [true, true, true, false])).2.trace ++
        [Call.Allocator_alloc theInstance 4 0,
         Call.Debug_LOG_ERROR "Allocator_alloc() failed for n=%zu" [4]] :=
  ⟨by decide,
   (os_pico_zalloc_null_iff scriptHost 4 (freshWorld [false])).1.mpr (Or.inl (by decide)),
   (os_pico_zalloc_null_iff scriptHost 4 (freshWorld [true, true, true, false])).1.mpr
     (Or.inr (by decide)),
   ((os_pico_zalloc_null_iff scriptHost 4 (freshWorld [false])).2.1 (by decide)).2.2,
   ((os_pico_zalloc_null_iff scriptHost 4 (freshWorld [true, true, true, false])).2.2.1
     (by decide) (by decide)).2.2⟩

/-- C3 on a fresh process where `Mutex_ctor` fails, and on a constructed
one: no `Allocator_free` in the first, exactly `Allocator_free(instance, 4096)`
in the second. -/
theorem os_pico_zfree_delegates_witness :
    (os_pico_zfree scriptHost 4096 (freshWorld [false])).trace
      = (getAllocatorInstance scriptHost (freshWorld [false])).2.trace ++
        [Call.Debug_LOG_ERROR "getAllocatorInstance() failed" []] ∧
    (os_pico_zfree scriptHost 4096 (readyWorld [])).trace
      = (getAllocatorInstance scriptHost (readyWorld [])).2.trace ++
        [Call.Allocator_free (getAllocatorInstance scriptHost (readyWorld [])).1 4096] :=
  ⟨((os_pico_zfree_delegates scriptHost 4096 (freshWorld [false])).1 (by decide)).2.2,
   ((os_pico_zfree_delegates scriptHost 4096 (readyWorld [])).2 (by decide)).2.2⟩

end PicoPort

